import Mathlib

/-!
Verification development for the bitrise xcode-archive step.

Shallow embedding of:
  * the diagnostic extractor (`findXcodebuildErrors`, `NewNSError`, `isNSError`,
    `findFirstSubMatch` over the two `NSLocalizedDescription=` /
    `NSLocalizedRecoverySuggestion=` regular expressions),
  * the export-log discovery (`findIDEDistrubutionLogsPath`),
  * the archive retry wrapper (`runArchiveCommandWithRetry`),
  * the spaceship command bridge (`createSpaceshipCommand`,
    `runSpaceshipCommandOnce`, `runSpaceshipCommand`,
    `shouldRetrySpaceshipCommand`).

Strings are modelled as Lean `String` (lists of characters); all inputs used in
concrete theorems are ASCII, where Go's byte-oriented operations coincide with
character-oriented ones.

Line scanning in the Go code goes through `bufio.Scanner` with `ScanLines` and
the default buffer.  That scanner splits at a newline character, strips one
trailing carriage return from each token, yields no final empty token when the
input ends with a newline, and fails with `bufio.ErrTooLong` as soon as it has
buffered `bufio.MaxScanTokenSize` = 65536 bytes without finding a newline,
i.e. exactly when some newline-free run of the input has length at least 65536.
That behaviour is modelled by `splitOnNL` / `scanTokens` / `scanFails` below.
-/

/-- Boolean infix (substring) test on character lists: some suffix of `l`
starts with `pat`.  Models Go's `strings.Contains` for ASCII text. -/
def isInfixB (pat : List Char) : List Char → Bool
  | [] => pat.isEmpty
  | c :: cs => pat.isPrefixOf (c :: cs) || isInfixB pat cs

/-- Models Go's `strings.Contains s pat`. -/
def strContains (s pat : String) : Bool :=
  isInfixB pat.data s.data

/-- Models Go's `strings.HasPrefix s pre`. -/
def strHasPrefix (s pre : String) : Bool :=
  pre.data.isPrefixOf s.data

/-- Splits a character list at every newline; a list with `n` newlines yields
`n + 1` segments (a trailing newline yields a trailing empty segment). -/
def splitOnNL : List Char → List (List Char)
  | [] => [[]]
  | c :: cs =>
    if c = '\n' then [] :: splitOnNL cs
    else
      match splitOnNL cs with
      | [] => [[c]]
      | seg :: rest => (c :: seg) :: rest

/-- Go's `dropCR`: strips one trailing carriage return from a token. -/
def dropCR (l : List Char) : List Char :=
  if l.getLast? = some '\r' then l.dropLast else l

/-- Go's `bufio.MaxScanTokenSize` (64 * 1024). -/
def maxScanTokenSize : Nat := 65536

/-- The raw tokens `bufio.Scanner`/`ScanLines` would attempt to produce, before
`dropCR`: all newline-separated segments, except that an input ending in a
newline (or an empty input) produces no final empty token. -/
def scanTokens (l : List Char) : List (List Char) :=
  let segs := splitOnNL l
  if segs.getLast? = some [] then segs.dropLast else segs

/-- Whether `bufio.Scanner` fails with `ErrTooLong` on this input: some
newline-free run reaches the 65536-byte buffer limit. -/
def scanFails (s : String) : Bool :=
  (scanTokens s.data).any fun seg => decide (maxScanTokenSize ≤ seg.length)

/-- The lines a successful `bufio.Scanner`/`ScanLines` run yields:
the raw tokens with one trailing carriage return stripped. -/
def splitLines (s : String) : List String :=
  (scanTokens s.data).map fun seg => String.mk (dropCR seg)

/-! ## Diagnostic extractor (`NSError` parsing and `findXcodebuildErrors`) -/

/-- The `NSError` record of the step: a description plus optional suggestion. -/
structure NSErr where
  description : String
  suggestion : String
deriving DecidableEq, Repr

/-- Lazy capture `(.+?)endc`: the shortest non-empty run of non-newline
characters followed by `endc`.  `none` when no such run exists (a newline or
the end of the text is reached first). -/
def lazyUpToGo (endc : Char) (acc : List Char) : List Char → Option (List Char)
  | [] => none
  | c :: cs =>
    if c = endc then some acc.reverse
    else if c = '\n' then none
    else lazyUpToGo endc (c :: acc) cs

/-- Matches `(.+?)endc` at the start of `rest` (the capture is non-empty). -/
def lazyUpTo (endc : Char) (rest : List Char) : Option (List Char) :=
  match rest with
  | [] => none
  | c0 :: cs => if c0 = '\n' then none else lazyUpToGo endc [c0] cs

/-- The comma character, first alternative terminator of the capture. -/
def commaChar : Char := ','

/-- The closing-brace character, second alternative terminator. -/
def closeBraceChar : Char := Char.ofNat 125

/-- The opening-brace character. -/
def openBraceChar : Char := Char.ofNat 123

/-- Scanner for Go's `findFirstSubMatch(str, "KEY=(.+?),|KEY=(.+?)}")` with
leftmost-first (Perl-style) semantics as implemented by Go's `regexp`:
positions are tried left to right; at the first position where `key` occurs,
the comma-terminated alternative is preferred over the brace-terminated one;
the first non-empty captured group is returned, `""` when nothing matches. -/
def findFirstSubMatchGo (key : List Char) : List Char → String
  | [] => ""
  | c :: cs =>
    if key.isPrefixOf (c :: cs) then
      match lazyUpTo commaChar ((c :: cs).drop key.length) with
      | some cap => String.mk cap
      | none =>
        match lazyUpTo closeBraceChar ((c :: cs).drop key.length) with
        | some cap => String.mk cap
        | none => findFirstSubMatchGo key cs
    else findFirstSubMatchGo key cs

/-- Go's `findFirstSubMatch` specialised to the two patterns the step uses;
`key` is the literal part (`NSLocalizedDescription=` or
`NSLocalizedRecoverySuggestion=`). -/
def findFirstSubMatchKV (key : List Char) (line : List Char) : String :=
  findFirstSubMatchGo key line

/-- The literal of the description pattern. -/
def keyDesc : List Char := "NSLocalizedDescription=".data

/-- The literal of the recovery-suggestion pattern. -/
def keySugg : List Char := "NSLocalizedRecoverySuggestion=".data

/-- Go's `isNSError`: the line must contain all four markers. -/
def isNSError (s : String) : Bool :=
  strContains s "Error " && strContains s "Domain=" &&
    strContains s "Code=" && strContains s "UserInfo="

/-- Go's `NewNSError`: `none` unless the line has the `NSError` shape and a
non-empty description can be extracted. -/
def NewNSError (str : String) : Option NSErr :=
  if isNSError str then
    let description := findFirstSubMatchKV keyDesc str.data
    if description = "" then none
    else some ⟨description, findFirstSubMatchKV keySugg str.data⟩
  else none

/-- Go's `NSError.Error()`: description, plus the suggestion after a space
when present. -/
def nsErrorMsg (e : NSErr) : String :=
  if e.suggestion = "" then e.description else e.description ++ " " ++ e.suggestion

/-- The line loop of `findXcodebuildErrors`: collects plain `error: `-prefixed
lines and `Error `-prefixed lines that parse as `NSError`, in order. -/
def scanErrLines : List String → List String × List NSErr
  | [] => ([], [])
  | l :: ls =>
    let p := scanErrLines ls
    if strHasPrefix l "error: " then (l :: p.1, p.2)
    else if strHasPrefix l "Error " then
      match NewNSError l with
      | some e => (p.1, e :: p.2)
      | none => p
    else p

/-- Go's `findXcodebuildErrors`: on a scanner error it returns no records (the
function's only return value is the record list, so the error is dropped);
otherwise it prefers the rendered `NSError` records exactly when their count
equals the plain-error-line count. -/
def findXcodebuildErrors (out : String) : List String :=
  if scanFails out then []
  else
    let p := scanErrLines (splitLines out)
    if p.2.length = p.1.length then p.2.map nsErrorMsg else p.1

/-- The plain-error lines of a text: lines starting with `error: `. -/
def plainErrorLines (out : String) : List String :=
  (splitLines out).filter fun l => strHasPrefix l "error: "

/-- The structured records extractable from a text: `Error `-prefixed lines
(not `error: `-prefixed ones) from which `NewNSError` yields a record. -/
def structuredErrors (out : String) : List NSErr :=
  (splitLines out).filterMap fun l =>
    if strHasPrefix l "error: " then none
    else if strHasPrefix l "Error " then NewNSError l else none

/-! ## Export-log discovery (`findIDEDistrubutionLogsPath`) -/

/-- The single-quote character (written numerically). -/
def quoteChar : Char := Char.ofNat 39

/-- The literal part of the `xcdistributionlogs` pattern, including the
opening single quote. -/
def ideDistMarker : List Char :=
  ("IDEDistribution: -[IDEDistributionLogging _createLoggingBundleAtPath:]: Created bundle at path ").data
    ++ [quoteChar]

/-- The suffix of `l` after the first occurrence of `pat`; `none` when `pat`
does not occur in `l`. -/
def splitFirstSuffix (pat : List Char) : List Char → Option (List Char)
  | [] => if pat.isEmpty then some [] else none
  | c :: cs =>
    if pat.isPrefixOf (c :: cs) then some ((c :: cs).drop pat.length)
    else splitFirstSuffix pat cs

/-- The part of `l` strictly before its last single quote; `none` when `l`
contains no single quote. -/
def dropAfterLastQuote (l : List Char) : Option (List Char) :=
  match l.reverse.dropWhile (fun c => !(c == quoteChar)) with
  | [] => none
  | _ :: rest => some rest.reverse

/-- One line matched against the Go pattern
`IDEDistribution: ...: Created bundle at path '(?P<log_path>.*)'`: the match
starts at the first occurrence of the literal marker, and the greedy `.*`
extends to the last single quote of the line. -/
def matchBundleLine (tok : List Char) : Option String :=
  match splitFirstSuffix ideDistMarker tok with
  | none => none
  | some rest => (dropAfterLastQuote rest).map String.mk

/-- The scan loop of `findIDEDistrubutionLogsPath`: tokens are consumed in
order; a token reaching the buffer limit surfaces the scanner error, the first
matching token returns its captured path, and exhaustion yields `""`. -/
def findIDELogsGo : List (List Char) → Except Unit String
  | [] => .ok ""
  | seg :: rest =>
    if maxScanTokenSize ≤ seg.length then .error ()
    else
      match matchBundleLine (dropCR seg) with
      | some path => .ok path
      | none => findIDELogsGo rest

/-- Go's `findIDEDistrubutionLogsPath`: scans the output line by line, returns
the first captured bundle path, propagates a scanner error, and returns
`("", nil)` when no line matches. -/
def findIDEDistrubutionLogsPath (output : String) : Except Unit String :=
  findIDELogsGo (scanTokens output.data)

/-! ## Archive retry wrapper (`runArchiveCommandWithRetry`) -/

/-- The outcome of one `runArchiveCommand` execution: its combined output and
its error (`none` on success; errors are carried as message strings). -/
structure ArchiveAttempt where
  output : String
  err : Option String
deriving DecidableEq, Repr

/-- Modelled from the spec: the fixed cache-invalidity marker string
(`cache.SwiftPackagesStateInvalid`).  The constant lives in the external
`go-xcode/xcodecache` library, outside this repository; every claim about the
wrapper depends only on whether the output contains this fixed marker, not on
its literal text. -/
def SwiftPackagesStateInvalid : String :=
  "Could not resolve package dependencies"

/-- Go's `runArchiveCommandWithRetry`.  `run i` is the result of the `i`-th
`runArchiveCommand` execution and `removeResult` the outcome of
`os.RemoveAll(swiftPackagesPath)` (`none` = success, `some msg` = failure).
Beyond the returned `(output, error)` pair, the model also reports the number
of executions issued and the deletion outcome (`none` = not attempted,
`some true` = deleted, `some false` = deletion failed). -/
def runArchiveCommandWithRetry (run : Nat → ArchiveAttempt)
    (swiftPackagesPath : String) (removeResult : Option String) :
    (String × Option String) × (Nat × Option Bool) :=
  let a1 := run 1
  match a1.err with
  | none => ((a1.output, none), (1, none))
  | some e =>
    if swiftPackagesPath ≠ "" ∧ strContains a1.output SwiftPackagesStateInvalid = true then
      match removeResult with
      | some msg =>
        ((a1.output, some ("failed to remove invalid Swift package caches, error: " ++ msg)),
          (1, some false))
      | none =>
        let a2 := run 2
        ((a2.output, a2.err), (2, some true))
    else ((a1.output, some e), (1, none))

/-! ## Spaceship bridge (`runSpaceshipCommand` and friends) -/

/-- The transient-service marker of `shouldRetrySpaceshipCommand`. -/
def marker503 : String := "503 Service Temporarily Unavailable"

/-- Go's `shouldRetrySpaceshipCommand`. -/
def shouldRetrySpaceshipCommand (out : String) : Bool :=
  if out = "" then false else strContains out marker503

/-- The parsed structured payload (`error` / `retry` fields). -/
structure PortalResponse where
  error : String
  shouldRetry : Bool
deriving DecidableEq, Repr

/-- Process-level failure of `RunAndReturnTrimmedCombinedOutput`: an
`exec.ExitError` carrying an exit code, or any other execution error. -/
inductive RunError where
  | exitError (code : Nat)
  | otherError
deriving DecidableEq, Repr

/-- What one external process execution produced: its trimmed combined output
and its process-level outcome (`none` = success). -/
structure AttemptResult where
  output : String
  runErr : Option RunError
deriving DecidableEq, Repr

/-- The errors `runSpaceshipCommandOnce` can return, by source-code path. -/
inductive OnceError where
  | exitedWithStatus (code : Nat) (output : String)
  | failedWithOutput (output : String)
  | noResponse (output : String)
  | unmarshalFailed (matched : String)
  | profilesInconsistent (errMsg : String)
  | portalError (errMsg : String)
deriving DecidableEq, Repr

/-- The `(?m)^\{.*\}$` search of `runSpaceshipCommandOnce`: the first
newline-separated segment that starts with `{` and ends with `}` (the dot
matches no newline, so a match spans one whole line). -/
def findJSONLine (out : String) : Option String :=
  ((splitOnNL out.data).find? fun seg =>
      decide (seg.head? = some openBraceChar) && decide (seg.getLast? = some closeBraceChar)).map
    String.mk

/-- Go's `runSpaceshipCommandOnce`, as a function of what the external process
produced (`r`) and of the JSON decoder (`parse`, modelling `json.Unmarshal`
into the `error`/`retry` struct; `none` = unmarshal failure). -/
def runSpaceshipCommandOnce (parse : String → Option PortalResponse)
    (r : AttemptResult) : String × Option OnceError :=
  match r.runErr with
  | some (.exitError code) => (r.output, some (.exitedWithStatus code r.output))
  | some .otherError => (r.output, some (.failedWithOutput r.output))
  | none =>
    match findJSONLine r.output with
    | none => ("", some (.noResponse r.output))
    | some matched =>
      match parse matched with
      | none => ("", some (.unmarshalFailed matched))
      | some resp =>
        if resp.shouldRetry then ("", some (.profilesInconsistent resp.error))
        else if resp.error ≠ "" then ("", some (.portalError resp.error))
        else (matched, none)

/-- The `i`-th attempt of a bridge invocation, composing the process oracle
with `runSpaceshipCommandOnce`. -/
def spaceshipOnce (parse : String → Option PortalResponse)
    (attempts : Nat → AttemptResult) (i : Nat) : String × Option OnceError :=
  runSpaceshipCommandOnce parse (attempts i)

/-- Observable events of the retry loop: issuing attempt `i`, or sleeping for
a number of seconds. -/
inductive BridgeEvent where
  | attempt (i : Nat)
  | sleep (seconds : Nat)
deriving DecidableEq, Repr

/-- The `for i := 1; i <= 3; i++` loop of `runSpaceshipCommand`, over the list
of remaining attempt indices.  `last` carries the `(spaceshipOut, spaceshipErr)`
variables that the code returns when the loop runs out of attempts.  The second
component is the ordered event trace (attempts issued and sleeps performed). -/
def runAttempts (once : Nat → String × Option OnceError) :
    List Nat → (String × Option OnceError) → (String × Option OnceError) × List BridgeEvent
  | [], last => (last, [])
  | i :: rest, _ =>
    match once i with
    | (out, none) => ((out, none), [.attempt i])
    | (out, some e) =>
      if shouldRetrySpaceshipCommand out then
        let next := runAttempts once rest (out, some e)
        (next.1, .attempt i :: .sleep (i * 15) :: next.2)
      else (("", some e), [.attempt i])

/-- Go's `runSpaceshipCommand`: up to three attempts with the shared retry
check and linear backoff (`createSpaceshipCommand` never returns an error, so
its error branch is dead and not modelled). -/
def runSpaceshipCommand (parse : String → Option PortalResponse)
    (attempts : Nat → AttemptResult) : (String × Option OnceError) × List BridgeEvent :=
  runAttempts (spaceshipOnce parse attempts) [1, 2, 3] ("", none)

/-! ## Spaceship command construction (`createSpaceshipCommand`) -/

/-- The Apple ID authentication fields used by the client. -/
structure AppleID where
  username : String
  password : String
  session : String
deriving DecidableEq, Repr

/-- The standard base64 alphabet. -/
def base64Alphabet : List Char :=
  "ABCDEFGHIJKLMNOPQRSTUVWXYZabcdefghijklmnopqrstuvwxyz0123456789+/".data

/-- The base64 digit for a 6-bit value. -/
def b64char (n : Nat) : Char := base64Alphabet.getD n '='

/-- The padding character. -/
def b64pad : Char := '='

/-- RFC 4648 standard base64 of a byte list (Go's
`base64.StdEncoding.EncodeToString`). -/
def base64EncodeBytes : List Nat → List Char
  | [] => []
  | [b1] => [b64char (b1 / 4), b64char (b1 % 4 * 16), b64pad, b64pad]
  | [b1, b2] =>
    [b64char (b1 / 4), b64char (b1 % 4 * 16 + b2 / 16), b64char (b2 % 16 * 4), b64pad]
  | b1 :: b2 :: b3 :: rest =>
    b64char (b1 / 4) :: b64char (b1 % 4 * 16 + b2 / 16) ::
      b64char (b2 % 16 * 4 + b3 / 64) :: b64char (b3 % 64) :: base64EncodeBytes rest

/-- UTF-8 encoding of one character (Go's `[]byte(s)` view of a rune). -/
def utf8Bytes (c : Char) : List Nat :=
  let n := c.toNat
  if n < 128 then [n]
  else if n < 2048 then [192 + n / 64, 128 + n % 64]
  else if n < 65536 then [224 + n / 4096, 128 + n / 64 % 64, 128 + n % 64]
  else [240 + n / 262144, 128 + n / 4096 % 64, 128 + n / 64 % 64, 128 + n % 64]

/-- The UTF-8 bytes of a string (Go's `[]byte(s)`). -/
def strUtf8 (s : String) : List Nat :=
  (s.data.map utf8Bytes).flatten

/-- Go's `base64.StdEncoding.EncodeToString([]byte(s))`. -/
def base64EncodeString (s : String) : String :=
  String.mk (base64EncodeBytes (strUtf8 s))

/-- The value `createSpaceshipCommand` builds: the argument list handed to the
command factory, and the printable form used for logging. -/
structure SpaceshipCmdModel where
  execArgs : List String
  printableCommandArgs : String
deriving DecidableEq, Repr

/-- Go's `createSpaceshipCommand` (the client's `authConfig` and `teamID`
fields are passed explicitly): the printable form joins only the
non-authentication arguments, while the executed argument list appends the
authentication parameters, the session base64-encoded. -/
def createSpaceshipCommand (authConfig : AppleID) (teamID : String)
    (subCommand : String) (opts : List String) : SpaceshipCmdModel :=
  let authParams := ["--username", authConfig.username,
    "--password", authConfig.password,
    "--session", base64EncodeString authConfig.session,
    "--team-id", teamID]
  let s := ["main.rb", "--subcommand", subCommand] ++ opts
  let printableCommand := " ".intercalate s
  { execArgs := s ++ authParams, printableCommandArgs := printableCommand }

/-! ## Concrete instances used by specific theorems -/

/-- The raw payload line `{"error":"x","retry":true}` (braces written as
hexadecimal escapes). -/
def jsonRetry : String := "\x7b\"error\":\"x\",\"retry\":true\x7d"

/-- The raw payload line `{"error":"","retry":false}`. -/
def jsonClean : String := "\x7b\"error\":\"\",\"retry\":false\x7d"

/-- A JSON decoder agreeing with `json.Unmarshal` on the two concrete payload
lines used below ( `{"error":"x","retry":true}` decodes to error `"x"`, retry
`true`; `{"error":"","retry":false}` decodes to the clean response). -/
def parseC1 : String → Option PortalResponse := fun m =>
  if m = jsonRetry then some ⟨"x", true⟩
  else if m = jsonClean then some ⟨"", false⟩
  else none

/-- A process oracle: attempts 1 and 2 exit successfully printing the
retry-requested payload, attempt 3 exits successfully printing the clean
payload. -/
def attemptsC1 : Nat → AttemptResult := fun i =>
  if i ≤ 2 then ⟨jsonRetry, none⟩ else ⟨jsonClean, none⟩

/-- A decoder that is never consulted (all oracles below crash at the process
level, so no payload is ever parsed). -/
def parseNone : String → Option PortalResponse := fun _ => none

/-- A crash output containing the transient-service marker. -/
def out503 : String := "HTTP error: 503 Service Temporarily Unavailable"

/-- A process oracle whose every attempt fails with exit status 1 and prints
the transient-service marker. -/
def attempts503 : Nat → AttemptResult := fun _ => ⟨out503, some (.exitError 1)⟩

/-- A single newline-free run of 70000 characters: `bufio.Scanner` fails with
`ErrTooLong` on it. -/
def longA : String := String.mk (List.replicate 70000 'a')

/-! ## Frozen-claim propositions that the code refutes -/

/-- Claim C1 as stated, at its own concrete scenario: with the retry-requested
payload on attempts 1 and 2 and the clean payload on attempt 3, the call
succeeds on attempt 3 returning that payload, after backoff sleeps of 15 and
30 seconds. -/
def c1ClaimProp : Prop :=
  runSpaceshipCommand parseC1 attemptsC1 =
    ((jsonClean, none),
      [.attempt 1, .sleep 15, .attempt 2, .sleep 30, .attempt 3])

/-- Claim C4 as stated, at a concrete input: an attempt failing at the process
level with an available exit status returns its descriptive error immediately,
without retrying, regardless of the captured output's content — here an output
containing the transient-service marker. -/
def c4ClaimProp : Prop :=
  runSpaceshipCommand parseNone attempts503 =
    (("", some (.exitedWithStatus 1 out503)), [.attempt 1])

/-- Claim C5's propagation clause: the scan error is propagated to the caller.
The extractor's only channel to its caller is its return value, so propagation
requires that the result distinguishes a failing scan from a successful one. -/
def c5ClaimProp : Prop :=
  ∀ o1 o2 : String, findXcodebuildErrors o1 = findXcodebuildErrors o2 →
    scanFails o1 = scanFails o2

/-- Every sleep in a trace is strictly followed by a next attempt. -/
def sleepFollowedByAttempt (t : List BridgeEvent) : Prop :=
  ∀ k s, t[k]? = some (BridgeEvent.sleep s) →
    ∃ j, t[k + 1]? = some (BridgeEvent.attempt j)

/-- Claim C6's clause that every backoff sleep strictly precedes a next
attempt (no sleep after the final attempt), for every invocation. -/
def c6ClaimProp : Prop :=
  ∀ (parse : String → Option PortalResponse) (attempts : Nat → AttemptResult),
    sleepFollowedByAttempt (runSpaceshipCommand parse attempts).2

/-! ## Helper lemmas -/

theorem splitOnNL_singleton (l : List Char) (h : '\n' ∉ l) : splitOnNL l = [l] := by
  induction l with
  | nil => rfl
  | cons c cs ih =>
    have hc : ¬ c = '\n' := fun e => h (e ▸ List.mem_cons_self c cs)
    have hcs : '\n' ∉ cs := fun hm => h (List.mem_cons_of_mem _ hm)
    simp [splitOnNL, hc, ih hcs]

theorem scanTokens_singleton (l : List Char) (h : '\n' ∉ l) (hne : l ≠ []) :
    scanTokens l = [l] := by
  show (if (splitOnNL l).getLast? = some [] then (splitOnNL l).dropLast else splitOnNL l) = [l]
  rw [splitOnNL_singleton l h]
  simp only [List.getLast?_singleton, Option.some.injEq]
  rw [if_neg hne]

theorem scanFails_longA : scanFails longA = true := by
  have hmem : '\n' ∉ List.replicate 70000 'a' := by
    intro hm
    exact absurd (List.eq_of_mem_replicate hm) (by decide)
  have hne : List.replicate 70000 'a' ≠ ([] : List Char) := by
    intro h
    have h2 := congrArg List.length h
    rw [List.length_replicate] at h2
    exact absurd h2 (by decide)
  have h1 : scanTokens longA.data = [List.replicate 70000 'a'] := by
    have hd : longA.data = List.replicate 70000 'a' := rfl
    rw [hd]
    exact scanTokens_singleton _ hmem hne
  unfold scanFails
  rw [h1]
  simp only [List.any_cons, List.any_nil, List.length_replicate, Bool.or_false]
  decide

theorem findXcodebuildErrors_of_scanFails (out : String)
    (h : scanFails out = true) : findXcodebuildErrors out = [] := by
  simp [findXcodebuildErrors, h]

theorem scanErrLines_eq (ls : List String) :
    scanErrLines ls =
      (ls.filter (fun l => strHasPrefix l "error: "),
        ls.filterMap fun l =>
          if strHasPrefix l "error: " then none
          else if strHasPrefix l "Error " then NewNSError l else none) := by
  induction ls with
  | nil => rfl
  | cons l ls ih =>
    by_cases h1 : strHasPrefix l "error: " = true
    · simp [scanErrLines, ih, List.filter_cons, List.filterMap_cons, h1]
    · by_cases h2 : strHasPrefix l "Error " = true
      · cases hn : NewNSError l with
        | none => simp [scanErrLines, ih, List.filter_cons, List.filterMap_cons, h1, h2, hn]
        | some e => simp [scanErrLines, ih, List.filter_cons, List.filterMap_cons, h1, h2, hn]
      · simp [scanErrLines, ih, List.filter_cons, List.filterMap_cons, h1, h2]

theorem hasPrefix_E_not_e (s : String) (h : strHasPrefix s "Error " = true) :
    strHasPrefix s "error: " = false := by
  unfold strHasPrefix at h ⊢
  have h1 : ("Error ").data = 'E' :: "rror ".data := by decide
  have h2 : ("error: ").data = 'e' :: "rror: ".data := by decide
  rw [h1] at h
  rw [h2]
  cases hd : s.data with
  | nil => rw [hd] at h; exact absurd h (by decide)
  | cons c cs =>
    rw [hd] at h
    simp only [List.isPrefixOf, Bool.and_eq_true, beq_iff_eq] at h
    simp only [List.isPrefixOf, Bool.and_eq_false_iff, beq_eq_false_iff_ne, ne_eq]
    left
    rw [← h.1]
    decide

theorem findIDELogsGo_all_short (toks : List (List Char))
    (h : ∀ seg ∈ toks, ¬ maxScanTokenSize ≤ seg.length) :
    findIDELogsGo toks =
      .ok (((toks.map dropCR).filterMap matchBundleLine).headD "") := by
  induction toks with
  | nil => rfl
  | cons seg rest ih =>
    have hs : ¬ maxScanTokenSize ≤ seg.length := h seg (List.mem_cons_self _ _)
    have hrest : ∀ s ∈ rest, ¬ maxScanTokenSize ≤ s.length :=
      fun s hm => h s (List.mem_cons_of_mem _ hm)
    cases hm : matchBundleLine (dropCR seg) with
    | some path =>
      simp [findIDELogsGo, hs, hm, List.filterMap_cons]
    | none =>
      simp [findIDELogsGo, hs, hm, List.filterMap_cons, ih hrest]

theorem scanFails_false_all_short (out : String) (h : scanFails out = false) :
    ∀ seg ∈ scanTokens out.data, ¬ maxScanTokenSize ≤ seg.length := by
  intro seg hm
  have := List.any_eq_false.mp h seg hm
  simpa using this

/-! ## Claim theorems -/

/-- Claim C1, counterexample.  The claim states that a successfully parsed
payload with `shouldRetry = true` makes the attempt retryable, so that with
retry-requested payloads on attempts 1 and 2 and a clean payload on attempt 3
the call succeeds on attempt 3 after sleeps of 15 and 30 seconds
(`c1ClaimProp`).  The code refutes it: `runSpaceshipCommandOnce` returns an
empty output together with the typed error, `shouldRetrySpaceshipCommand ""`
is `false`, and the loop returns the typed error right after attempt 1. -/
theorem claim_C1_counterexample :
    ¬ c1ClaimProp ∧
      runSpaceshipCommand parseC1 attemptsC1 =
        (("", some (.profilesInconsistent "x")), [.attempt 1]) := by
  constructor
  · unfold c1ClaimProp
    decide
  · decide

/-- Claim C1, amended.  When an attempt's process succeeds and its payload
parses with `shouldRetry = true`, the bridge returns the typed
profiles-inconsistent error wrapping the payload's `error` field immediately
at that attempt: no backoff sleep is performed and no further attempt is
issued inside the bridge (the typed error defers retrying to the caller). -/
theorem claim_C1_amended :
    (∀ (parse : String → Option PortalResponse) (out matched : String) (resp : PortalResponse),
        findJSONLine out = some matched → parse matched = some resp →
        resp.shouldRetry = true →
        runSpaceshipCommandOnce parse ⟨out, none⟩ =
          ("", some (.profilesInconsistent resp.error))) ∧
    (∀ (once : Nat → String × Option OnceError) (i : Nat) (rest : List Nat)
        (d : String × Option OnceError) (e : String),
        once i = ("", some (.profilesInconsistent e)) →
        runAttempts once (i :: rest) d =
          (("", some (.profilesInconsistent e)), [.attempt i])) := by
  constructor
  · intro parse out matched resp h1 h2 h3
    simp [runSpaceshipCommandOnce, h1, h2, h3]
  · intro once i rest d e h
    simp [runAttempts, h, shouldRetrySpaceshipCommand]

/-- Claim C1, witness for the amended theorem at concrete inputs. -/
theorem claim_C1_witness :
    runSpaceshipCommandOnce parseC1 ⟨jsonRetry, none⟩ =
      ("", some (.profilesInconsistent "x")) ∧
    runAttempts (fun _ => ("", some (.profilesInconsistent "x"))) [1, 2, 3] ("", none) =
      (("", some (.profilesInconsistent "x")), [.attempt 1]) :=
  ⟨claim_C1_amended.1 parseC1 jsonRetry jsonRetry ⟨"x", true⟩ (by decide) (by decide) rfl,
    claim_C1_amended.2 _ 1 [2, 3] ("", none) "x" rfl⟩

/-- Claim C2, confirmed.  The archive wrapper: a successful first run returns
unchanged after one invocation; a failed first run whose output contains the
cache-invalidity marker with a non-empty cache path deletes the cache and
re-runs exactly once, returning the second run's `(output, error)`
unconditionally; a deletion failure is a fatal error with no re-run; and in
every other case (success, empty cache path, or marker absent) the command
runs exactly once and the first `(output, error)` is returned unchanged. -/
theorem claim_C2 :
    (∀ (run : Nat → ArchiveAttempt) (p : String) (rm : Option String) (o : String),
        run 1 = ⟨o, none⟩ →
        runArchiveCommandWithRetry run p rm = ((o, none), (1, none))) ∧
    (∀ (run : Nat → ArchiveAttempt) (p o e : String),
        run 1 = ⟨o, some e⟩ → p ≠ "" →
        strContains o SwiftPackagesStateInvalid = true →
        runArchiveCommandWithRetry run p none =
          (((run 2).output, (run 2).err), (2, some true))) ∧
    (∀ (run : Nat → ArchiveAttempt) (p o e msg : String),
        run 1 = ⟨o, some e⟩ → p ≠ "" →
        strContains o SwiftPackagesStateInvalid = true →
        runArchiveCommandWithRetry run p (some msg) =
          ((o, some ("failed to remove invalid Swift package caches, error: " ++ msg)),
            (1, some false))) ∧
    (∀ (run : Nat → ArchiveAttempt) (p : String) (rm : Option String) (o e : String),
        run 1 = ⟨o, some e⟩ →
        (p = "" ∨ strContains o SwiftPackagesStateInvalid = false) →
        runArchiveCommandWithRetry run p rm = ((o, some e), (1, none))) := by
  refine ⟨?_, ?_, ?_, ?_⟩
  · intro run p rm o h
    simp [runArchiveCommandWithRetry, h]
  · intro run p o e h hp hc
    simp [runArchiveCommandWithRetry, h, hp, hc]
  · intro run p o e msg h hp hc
    simp [runArchiveCommandWithRetry, h, hp, hc]
  · intro run p rm o e h hother
    rcases hother with hp | hc
    · simp [runArchiveCommandWithRetry, h, hp]
    · simp [runArchiveCommandWithRetry, h, hc]

/-- Claim C2, witness: the four branches at concrete runs. -/
theorem claim_C2_witness :
    runArchiveCommandWithRetry (fun _ => ⟨"ok", none⟩) "/tmp/swiftpm" none =
      (("ok", none), (1, none)) ∧
    runArchiveCommandWithRetry
        (fun i => if i = 1 then ⟨"log Could not resolve package dependencies tail", some "exit 65"⟩
          else ⟨"second", some "exit 65 again"⟩) "/tmp/swiftpm" none =
      (("second", some "exit 65 again"), (2, some true)) ∧
    runArchiveCommandWithRetry
        (fun _ => ⟨"log Could not resolve package dependencies tail", some "exit 65"⟩)
        "/tmp/swiftpm" (some "permission denied") =
      (("log Could not resolve package dependencies tail",
          some "failed to remove invalid Swift package caches, error: permission denied"),
        (1, some false)) ∧
    runArchiveCommandWithRetry (fun _ => ⟨"unrelated failure", some "exit 65"⟩)
        "/tmp/swiftpm" none =
      (("unrelated failure", some "exit 65"), (1, none)) :=
  ⟨claim_C2.1 _ "/tmp/swiftpm" none "ok" rfl,
    claim_C2.2.1 _ "/tmp/swiftpm" "log Could not resolve package dependencies tail" "exit 65"
      rfl (by decide) (by decide),
    claim_C2.2.2.1 _ "/tmp/swiftpm" "log Could not resolve package dependencies tail" "exit 65"
      "permission denied" rfl (by decide) (by decide),
    claim_C2.2.2.2 _ "/tmp/swiftpm" none "unrelated failure" "exit 65" rfl
      (Or.inr (by decide))⟩

/-- Claim C3, confirmed (for inputs the line scanner can process, i.e. inputs
with every newline-free run below the 65536-byte buffer limit; the scanner
failure mode is a separate claim).  When the number of extractable structured
records equals the number of plain `error: ` lines, the extractor returns
exactly the structured records rendered as description, or description, a
space and the suggestion; in every other case it returns exactly the plain
lines unchanged — never a mix. -/
theorem claim_C3 (out : String) (h : scanFails out = false) :
    ((structuredErrors out).length = (plainErrorLines out).length →
        findXcodebuildErrors out = (structuredErrors out).map nsErrorMsg) ∧
    ((structuredErrors out).length ≠ (plainErrorLines out).length →
        findXcodebuildErrors out = plainErrorLines out) := by
  have he : scanErrLines (splitLines out) = (plainErrorLines out, structuredErrors out) := by
    rw [scanErrLines_eq]; rfl
  constructor
  · intro hl
    simp [findXcodebuildErrors, h, he, hl]
  · intro hl
    simp [findXcodebuildErrors, h, he, hl]

set_option maxRecDepth 100000 in
/-- Claim C3, witness: an equal-counts text yields the rendered structured
record; a text with two plain lines and no structured record yields the plain
lines unchanged. -/
theorem claim_C3_witness :
    findXcodebuildErrors
        ("error: compile failed\nError Domain=IDEProvisioningErrorDomain Code=9 "
          ++ "UserInfo=\x7bNSLocalizedDescription=needs profile, "
          ++ "NSLocalizedRecoverySuggestion=add a profile\x7d") =
      ["needs profile add a profile"] ∧
    findXcodebuildErrors "error: a\nerror: b" = ["error: a", "error: b"] :=
  ⟨((claim_C3 _ (by decide)).1 (by decide)).trans (by decide),
    ((claim_C3 _ (by decide)).2 (by decide)).trans (by decide)⟩

/-- Claim C4, counterexample.  The claim states that a process-level failure
with an available exit status returns a descriptive error immediately without
retrying, regardless of the captured output (`c4ClaimProp` instantiates it at
an output containing the transient-service marker).  The code refutes it: the
`503 Service Temporarily Unavailable` check runs exactly on the process-failure
outputs, so this invocation issues all three attempts with backoff sleeps of
15, 30 and 45 seconds. -/
theorem claim_C4_counterexample :
    ¬ c4ClaimProp ∧
      runSpaceshipCommand parseNone attempts503 =
        ((out503, some (.exitedWithStatus 1 out503)),
          [.attempt 1, .sleep 15, .attempt 2, .sleep 30, .attempt 3, .sleep 45]) := by
  constructor
  · unfold c4ClaimProp
    decide
  · decide

/-- Claim C4, amended.  A process-level failure with an available exit status
returns a descriptive error immediately with no backoff sleep and no further
attempt, provided the captured output does not contain the transient
`503 Service Temporarily Unavailable` marker; a crash output containing that
marker takes the shared retry path instead. -/
theorem claim_C4_amended (parse : String → Option PortalResponse)
    (attempts : Nat → AttemptResult) (i : Nat) (rest : List Nat)
    (d : String × Option OnceError) (out : String) (code : Nat)
    (h1 : attempts i = ⟨out, some (.exitError code)⟩)
    (h2 : strContains out marker503 = false) :
    runAttempts (spaceshipOnce parse attempts) (i :: rest) d =
      (("", some (.exitedWithStatus code out)), [.attempt i]) := by
  have hr : shouldRetrySpaceshipCommand out = false := by
    unfold shouldRetrySpaceshipCommand
    by_cases ho : out = ""
    · simp [ho]
    · simp [ho, h2]
  simp [runAttempts, spaceshipOnce, runSpaceshipCommandOnce, h1, hr]

/-- Claim C4, witness for the amended theorem at a concrete crash. -/
theorem claim_C4_witness :
    runAttempts (spaceshipOnce parseNone (fun _ => ⟨"boom", some (.exitError 2)⟩))
        [1, 2, 3] ("", none) =
      (("", some (.exitedWithStatus 2 "boom")), [.attempt 1]) :=
  claim_C4_amended parseNone _ 1 [2, 3] ("", none) "boom" 2 rfl (by decide)

/-- Claim C5, counterexample.  The claim states that when the line scan fails
the extractor propagates the underlying scan error to its caller
(`c5ClaimProp`: the only channel to the caller is the returned record list, so
propagation requires the result to distinguish a failing scan).  The code
refutes it: on a scanner error `findXcodebuildErrors` returns `nil`, the very
value it returns for an error-free input, so the caller cannot observe the
error — witnessed by a 70000-character newline-free input against `""`. -/
theorem claim_C5_counterexample : ¬ c5ClaimProp := by
  intro h
  have h1 : findXcodebuildErrors longA = [] :=
    findXcodebuildErrors_of_scanFails longA scanFails_longA
  have h2 : findXcodebuildErrors "" = [] := by decide
  have h3 := h longA "" (h1.trans h2.symm)
  rw [scanFails_longA] at h3
  have h4 : scanFails "" = false := by decide
  rw [h4] at h3
  exact Bool.noConfusion h3

/-- Claim C5, amended.  When the line scan fails the extractor returns no
records but swallows the scan error (the caller receives an ordinary empty
record list, indistinguishable from a clean empty result); and for every
scannable input containing no recognizable error line it returns an empty
result without error. -/
theorem claim_C5_amended :
    (∀ out, scanFails out = true → findXcodebuildErrors out = []) ∧
    (∀ out, scanFails out = false → plainErrorLines out = [] →
        structuredErrors out = [] → findXcodebuildErrors out = []) := by
  constructor
  · exact findXcodebuildErrors_of_scanFails
  · intro out h hp hs
    have he : scanErrLines (splitLines out) = (plainErrorLines out, structuredErrors out) := by
      rw [scanErrLines_eq]; rfl
    simp [findXcodebuildErrors, h, he, hp, hs]

/-- Claim C5, witness: the over-long input yields no records, and a benign
two-line input with no recognizable error line yields the empty result. -/
theorem claim_C5_witness :
    findXcodebuildErrors longA = [] ∧ findXcodebuildErrors "hello\nworld" = [] :=
  ⟨claim_C5_amended.1 longA scanFails_longA,
    claim_C5_amended.2 "hello\nworld" (by decide) (by decide) (by decide)⟩

/-- Claim C6, counterexample.  The claim states that every backoff sleep
strictly precedes a next attempt, with no sleep after the final attempt
(`c6ClaimProp`).  The code refutes it: when attempt 3 still fails with the
transient marker, the loop sleeps 3 * 15 = 45 seconds and only then exits, so
the trace ends with a sleep that no attempt follows. -/
theorem claim_C6_counterexample : ¬ c6ClaimProp := by
  intro h
  have ht : (runSpaceshipCommand parseNone attempts503).2 =
      [.attempt 1, .sleep 15, .attempt 2, .sleep 30, .attempt 3, .sleep 45] := by
    decide
  obtain ⟨j, hj⟩ := h parseNone attempts503 5 45 (by rw [ht]; decide)
  rw [ht] at hj
  simp at hj

/-- Claim C6, amended.  Attempts are strictly ordered 1, 2, 3 with at most 3
attempts ever issued, and each backoff sleep of `i * 15` seconds immediately
follows a failed attempt `i` that the shared 503-marker check deems retryable —
including attempt 3, after which a final 45-second sleep occurs before the
loop returns (the structured retry-requested flag never reaches this retry
path: it produces an empty output, so only the transient-marker trigger drives
the single attempt counter and backoff schedule).  Every trace of the loop has
one of exactly four shapes. -/
theorem claim_C6_amended (once : Nat → String × Option OnceError)
    (d : String × Option OnceError) :
    (runAttempts once [1, 2, 3] d).2 = [.attempt 1] ∨
    (runAttempts once [1, 2, 3] d).2 = [.attempt 1, .sleep 15, .attempt 2] ∨
    (runAttempts once [1, 2, 3] d).2 =
      [.attempt 1, .sleep 15, .attempt 2, .sleep 30, .attempt 3] ∨
    (runAttempts once [1, 2, 3] d).2 =
      [.attempt 1, .sleep 15, .attempt 2, .sleep 30, .attempt 3, .sleep 45] := by
  rcases h1 : once 1 with ⟨o1, e1⟩
  cases e1 with
  | none => left; simp [runAttempts, h1]
  | some e1v =>
    by_cases hr1 : shouldRetrySpaceshipCommand o1 = true
    · rcases h2 : once 2 with ⟨o2, e2⟩
      cases e2 with
      | none => right; left; simp [runAttempts, h1, h2, hr1]
      | some e2v =>
        by_cases hr2 : shouldRetrySpaceshipCommand o2 = true
        · rcases h3 : once 3 with ⟨o3, e3⟩
          cases e3 with
          | none => right; right; left; simp [runAttempts, h1, h2, h3, hr1, hr2]
          | some e3v =>
            by_cases hr3 : shouldRetrySpaceshipCommand o3 = true
            · right; right; right; simp [runAttempts, h1, h2, h3, hr1, hr2, hr3]
            · right; right; left; simp [runAttempts, h1, h2, h3, hr1, hr2, hr3]
        · right; left; simp [runAttempts, h1, h2, hr1, hr2]
    · left; simp [runAttempts, h1, hr1]

/-- Claim C7, confirmed.  An attempt whose process exits successfully but
whose combined output contains no line of the brace-delimited-JSON-object
shape makes the bridge return the format error immediately: no backoff sleep
is performed and no further attempt is issued for this failure (the format
error carries an empty output, which the retry check never accepts). -/
theorem claim_C7 (parse : String → Option PortalResponse)
    (attempts : Nat → AttemptResult) (i : Nat) (rest : List Nat)
    (d : String × Option OnceError) (out : String)
    (h1 : attempts i = ⟨out, none⟩) (h2 : findJSONLine out = none) :
    runAttempts (spaceshipOnce parse attempts) (i :: rest) d =
      (("", some (.noResponse out)), [.attempt i]) := by
  simp [runAttempts, spaceshipOnce, runSpaceshipCommandOnce, h1, h2,
    shouldRetrySpaceshipCommand]

/-- Claim C7, witness: a successful process printing no JSON-shaped line
fails with the format error after exactly one attempt. -/
theorem claim_C7_witness :
    runAttempts (spaceshipOnce parseNone (fun _ => ⟨"no payload here", none⟩))
        [1, 2, 3] ("", none) =
      (("", some (.noResponse "no payload here")), [.attempt 1]) :=
  claim_C7 parseNone _ 1 [2, 3] ("", none) "no payload here" rfl (by decide)

/-- Claim C8, confirmed (for inputs the line scanner can process, i.e. inputs
with every newline-free run below the 65536-byte buffer limit).  The
secondary-log discovery returns the path captured from the first line matching
the marker-phrase-followed-by-single-quoted-path pattern — later matching
lines are ignored — and when no line matches it returns an empty path with no
error. -/
theorem claim_C8 (out : String) (h : scanFails out = false) :
    findIDEDistrubutionLogsPath out =
      .ok (((splitLines out).filterMap fun l => matchBundleLine l.data).headD "") := by
  have hs := scanFails_false_all_short out h
  unfold findIDEDistrubutionLogsPath
  rw [findIDELogsGo_all_short _ hs]
  simp only [splitLines, List.filterMap_map]
  rfl

set_option maxRecDepth 100000 in
/-- Claim C8, witness: an output whose second line carries the marker phrase
and a quoted path yields that path (the later text is ignored), and an output
with no marker yields the empty path without error. -/
theorem claim_C8_witness :
    findIDEDistrubutionLogsPath
        ("junk\nIDEDistribution: -[IDEDistributionLogging _createLoggingBundleAtPath:]: "
          ++ "Created bundle at path " ++ String.mk [quoteChar] ++ "/tmp/logs/xyz"
          ++ String.mk [quoteChar] ++ "\ntail") =
      .ok "/tmp/logs/xyz" ∧
    findIDEDistrubutionLogsPath "no bundle reference" = .ok "" :=
  ⟨(claim_C8 _ (by decide)).trans (congrArg Except.ok (by decide)),
    (claim_C8 _ (by decide)).trans (congrArg Except.ok (by decide))⟩

/-- Claim C9, confirmed.  The printable representation of the constructed
spaceship command is identical for any two choices of the authentication
secrets (username, password, session token, team identifier) — they never
appear in it — while the executed argument list carries all of them, the
session token base64-encoded. -/
theorem claim_C9 :
    (∀ (a1 a2 : AppleID) (t1 t2 subCommand : String) (opts : List String),
        (createSpaceshipCommand a1 t1 subCommand opts).printableCommandArgs =
          (createSpaceshipCommand a2 t2 subCommand opts).printableCommandArgs) ∧
    (∀ (a : AppleID) (teamID subCommand : String) (opts : List String),
        (createSpaceshipCommand a teamID subCommand opts).execArgs =
          ["main.rb", "--subcommand", subCommand] ++ opts ++
            ["--username", a.username, "--password", a.password,
              "--session", base64EncodeString a.session, "--team-id", teamID]) := by
  constructor
  · intro a1 a2 t1 t2 subCommand opts
    rfl
  · intro a teamID subCommand opts
    simp [createSpaceshipCommand]

/-- Claim C10, confirmed.  A line that starts with the structured-error prefix
and contains all the required markers, but from which the description pattern
extracts no non-empty description, produces no record: `NewNSError` rejects it
and the line contributes to neither the structured nor the plain collection of
the extractor's scan, with no error. -/
theorem claim_C10 (line : String) (rest : List String)
    (h1 : strHasPrefix line "Error " = true) (h2 : isNSError line = true)
    (h3 : findFirstSubMatchKV keyDesc line.data = "") :
    NewNSError line = none ∧ scanErrLines (line :: rest) = scanErrLines rest := by
  have hne := hasPrefix_E_not_e line h1
  have hnil : NewNSError line = none := by
    simp [NewNSError, h2, h3]
  exact ⟨hnil, by simp [scanErrLines, hne, h1, hnil]⟩

/-- Claim C10, witness: a marker-complete line with an unextractable
description is silently ignored by the scan. -/
theorem claim_C10_witness :
    NewNSError "Error Domain=NSCocoaErrorDomain Code=3840 UserInfo=garbled" = none ∧
    scanErrLines ["Error Domain=NSCocoaErrorDomain Code=3840 UserInfo=garbled", "error: x"] =
      scanErrLines ["error: x"] :=
  claim_C10 _ ["error: x"] (by decide) (by decide) (by decide)
